import Mathlib

/-!
Verification of the kiro-gateway translation core.

This file gives a shallow embedding of the gateway's translation layer
(src/kiro/q_api.py and src/kiro/utils.py) and proves or refutes the frozen
claims about it.

Python values flowing through the translator are modelled by the inductive
type Json below.  Python dictionaries are association lists (Python dicts
preserve insertion order and the code never creates duplicate keys).
Fallible Python operations (subscripting a dict with a missing key raises
KeyError, calling .get on a non-dict raises AttributeError, joining
non-strings raises TypeError) are modelled with Except String: an error
value carries the Python exception class of the raise.
-/

inductive Json where
  | null : Json
  | bool : Bool → Json
  | num : Int → Json
  | str : String → Json
  | arr : List Json → Json
  | obj : List (String × Json) → Json
deriving Repr

mutual

/-- Python equality (the == operator) on the values this code compares.
Exact on None/bool/int/str, including Python's numeric cross-equality
True == 1 and False == 0, and pointwise on lists.  On dicts it is
order-sensitive, a sound approximation here: the embedded code only ever
compares against string literals or (in the list-models parser) values the
theorems constrain to strings. -/
def jeq : Json → Json → Bool
  | .null, .null => true
  | .bool a, .bool b => a == b
  | .num a, .num b => a == b
  | .str a, .str b => a == b
  | .bool a, .num n => if a then n == 1 else n == 0
  | .num n, .bool a => if a then n == 1 else n == 0
  | .arr xs, .arr ys => jeqList xs ys
  | .obj xs, .obj ys => jeqFields xs ys
  | _, _ => false

def jeqList : List Json → List Json → Bool
  | [], [] => true
  | x :: xs, y :: ys => jeq x y && jeqList xs ys
  | _, _ => false

def jeqFields : List (String × Json) → List (String × Json) → Bool
  | [], [] => true
  | (k, v) :: xs, (k2, v2) :: ys => k == k2 && jeq v v2 && jeqFields xs ys
  | _, _ => false

end

/-- First-match association-list lookup: Python dict access on the field list. -/
def getField : List (String × Json) → String → Option Json
  | [], _ => none
  | (k2, v) :: rest, k => if k2 == k then some v else getField rest k

/-- Python `k in d` for a dict. -/
def hasKey (j : Json) (k : String) : Bool :=
  match j with
  | .obj fs => (getField fs k).isSome
  | _ => false

/-- Python truthiness of a value. -/
def truthy : Json → Bool
  | .null => false
  | .bool b => b
  | .num n => n != 0
  | .str s => !s.isEmpty
  | .arr xs => !xs.isEmpty
  | .obj fs => !fs.isEmpty

/-- Python `x.get(k, dflt)`: AttributeError when x is not a dict. -/
def pyGet (j : Json) (k : String) (dflt : Json) : Except String Json :=
  match j with
  | .obj fs => .ok ((getField fs k).getD dflt)
  | _ => .error "AttributeError"

/-- Python `x[k]` subscript read with a string key: KeyError when the key is
missing, TypeError when x is not a dict. -/
def getItem (j : Json) (k : String) : Except String Json :=
  match j with
  | .obj fs =>
      match getField fs k with
      | some v => .ok v
      | none => .error ("KeyError: " ++ k)
  | _ => .error "TypeError"

/-- View a value as a dict's field list; Python raises TypeError on
item assignment to a non-dict. -/
def asObj (j : Json) : Except String (List (String × Json)) :=
  match j with
  | .obj fs => .ok fs
  | _ => .error "TypeError"

/-- Python `d[k] = v` on a field list: replace the first binding in place,
or append a new one (dict insertion order). -/
def setField : List (String × Json) → String → Json → List (String × Json)
  | [], k, v => [(k, v)]
  | (k2, v2) :: rest, k, v =>
      if k2 == k then (k2, v) :: rest else (k2, v2) :: setField rest k v

/-- The text-part collection loop of build_conversation_state (q_api.py
lines 90-93): keep part.get("text", "") for every dict part whose "type"
is "text". -/
def collectTextParts (parts : List Json) : List Json :=
  parts.filterMap fun p =>
    match p with
    | .obj fs =>
        if jeq ((getField fs "type").getD Json.null) (Json.str "text") then
          some ((getField fs "text").getD (Json.str ""))
        else none
    | _ => none

def asStrList : List Json → Option (List String)
  | [] => some []
  | .str s :: rest => (asStrList rest).map (s :: ·)
  | _ => none

/-- Python `sep.join(xs)`: TypeError when any element is not a str. -/
def pyJoin (sep : String) (xs : List Json) : Except String String :=
  match asStrList xs with
  | some ss => .ok (String.intercalate sep ss)
  | none => .error "TypeError"

/-- Content flattening (q_api.py lines 89-94): a list of content parts is
collapsed to the newline-join of its text parts; any other value is used
as-is. -/
def flattenContent (c : Json) : Except String Json :=
  match c with
  | .arr parts => (pyJoin "\n" (collectTextParts parts)).map Json.str
  | other => .ok other

/-- The user-input message dict built for a user-role message
(q_api.py lines 100-107 and 146-153). -/
def mkUserInputMessage (content : Json) : Json :=
  .obj [("content", content),
        ("userInputMessageContext",
          .obj [("userSettings",
                  .obj [("hasConsentedToCrossRegionCalls", Json.bool true)])])]

/-- One history turn (q_api.py lines 110-115). -/
def mkTurn (userInput assistantContent : Json) : Json :=
  .obj [("userInputMessage", userInput),
        ("assistantResponseMessage", .obj [("content", assistantContent)])]

def optTruthy : Option Json → Bool
  | none => false
  | some j => truthy j

/-- One iteration of the message loop of build_conversation_state
(q_api.py lines 84-116).  The state is (history so far, current_message). -/
def convStep (st : List Json × Option Json) (msg : Json) :
    Except String (List Json × Option Json) := do
  let role ← pyGet msg "role" (Json.str "user")
  let rawContent ← pyGet msg "content" (Json.str "")
  let content ← flattenContent rawContent
  if jeq role (Json.str "system") then
    pure st
  else if jeq role (Json.str "user") then
    pure (st.1, some (mkUserInputMessage content))
  else if jeq role (Json.str "assistant") then
    if optTruthy st.2 then
      pure (st.1 ++ [mkTurn (st.2.getD Json.null) content], none)
    else
      pure st
  else
    pure st

/-- The message loop of build_conversation_state, run over a message list. -/
def buildLoopAux : List Json → List Json × Option Json →
    Except String (List Json × Option Json)
  | [], st => .ok st
  | m :: ms, st => do buildLoopAux ms (← convStep st m)

/-- The fallback backward scan for the last user message (q_api.py lines
136-154); the argument is the reversed message list. -/
def scanLastUser : List Json → Except String (Option Json)
  | [] => .ok none
  | msg :: rest => do
      let role ← pyGet msg "role" Json.null
      if jeq role (Json.str "user") then do
        let rawContent ← pyGet msg "content" (Json.str "")
        let content ← flattenContent rawContent
        .ok (some (mkUserInputMessage content))
      else
        scanLastUser rest

def optStrTruthy : Option String → Bool
  | none => false
  | some s => !s.isEmpty

/-- Embedding of build_conversation_state (q_api.py lines 58-156).
model_id and profile_arn are accepted and, exactly as in the source,
never read. -/
def build_conversation_state (messages : List Json) (model_id : String)
    (conversation_id : Option String) (profile_arn : Option String)
    (chat_trigger_type : String) : Except String Json := do
  let res ← buildLoopAux messages ([], none)
  let history := res.1
  let current := res.2
  let fs1 := [("chatTriggerType", Json.str chat_trigger_type)]
  let fs2 := if optStrTruthy conversation_id then
      fs1 ++ [("conversationId", Json.str (conversation_id.getD ""))]
    else fs1
  let fs3 := if history.isEmpty then fs2 else fs2 ++ [("history", Json.arr history)]
  if optTruthy current then
    .ok (Json.obj (fs3 ++ [("currentMessage", current.getD Json.null)]))
  else if !messages.isEmpty then do
    let scanned ← scanLastUser messages.reverse
    match scanned with
    | some cm => .ok (Json.obj (fs3 ++ [("currentMessage", cm)]))
    | none => .ok (Json.obj fs3)
  else
    .ok (Json.obj fs3)

/-- The tool-spec built for one caller tool of type "function"
(q_api.py lines 200-207); none for other tool types. -/
def toolSpecOf (tool : Json) : Except String (Option Json) := do
  let ttype ← pyGet tool "type" Json.null
  if jeq ttype (Json.str "function") then do
    let func ← pyGet tool "function" (Json.obj [])
    let name ← pyGet func "name" (Json.str "")
    let desc ← pyGet func "description" (Json.str "")
    let params ← pyGet func "parameters" (Json.obj [])
    .ok (some (Json.obj [("name", name), ("description", desc),
                         ("inputSchema", params)]))
  else
    .ok none

def collectToolSpecs : List Json → Except String (List Json)
  | [] => .ok []
  | t :: ts => do
      let s ← toolSpecOf t
      let rest ← collectToolSpecs ts
      .ok (match s with | some j => j :: rest | none => rest)

def optListTruthy : Option (List Json) → Bool
  | none => false
  | some l => !l.isEmpty

/-- Embedding of build_generate_assistant_request (q_api.py lines 159-212).
The nested item assignment at line 210 is modelled by the getItem/asObj
chain: it raises KeyError("currentMessage") when the built conversation
state has no currentMessage. -/
def build_generate_assistant_request (messages : List Json) (model_id : String)
    (conversation_id : Option String) (profile_arn : Option String)
    (agent_mode : Bool) (tools : Option (List Json)) : Except String Json := do
  let cs ← build_conversation_state messages model_id conversation_id profile_arn "MANUAL"
  let req1 := [("conversationState", cs)]
  let req2 := if agent_mode then req1 ++ [("agentMode", Json.bool true)] else req1
  if optListTruthy tools then do
    let tool_specs ← collectToolSpecs (tools.getD [])
    if !tool_specs.isEmpty then do
      let cm ← getItem cs "currentMessage"
      let ctx ← getItem cm "userInputMessageContext"
      let ctxFs ← asObj ctx
      let cmFs ← asObj cm
      let csFs ← asObj cs
      let ctx2 := Json.obj (setField ctxFs "tools" (Json.arr tool_specs))
      let cm2 := Json.obj (setField cmFs "userInputMessageContext" ctx2)
      let cs2 := Json.obj (setField csFs "currentMessage" cm2)
      .ok (Json.obj (setField req2 "conversationState" cs2))
    else
      .ok (Json.obj req2)
  else
    .ok (Json.obj req2)

/-- Assemble one parsed event: a dict whose first entry is the "type" tag,
followed by the fields of that event kind. -/
def withType (k : String) (m : Except String (List (String × Json))) :
    Except String Json :=
  m.map fun flds => Json.obj (("type", Json.str k) :: flds)

/-- Fields of a "message" event (q_api.py lines 356-366). -/
def messageFields (msg : Json) : Except String (List (String × Json)) := do
  let mid ← pyGet msg "messageId" (Json.str "")
  let content ← pyGet msg "content" (Json.str "")
  let toolUses ← pyGet msg "toolUses" (Json.arr [])
  let refs ← pyGet msg "references" (Json.arr [])
  let followup ← pyGet msg "followupPrompt" Json.null
  let cachePoint ← pyGet msg "cachePoint" Json.null
  let reasoning ← pyGet msg "reasoningContent" Json.null
  .ok [("message_id", mid), ("content", content), ("tool_uses", toolUses),
       ("references", refs), ("followup_prompt", followup),
       ("cache_point", cachePoint), ("reasoning_content", reasoning)]

/-- Fields of a "tool_use" event (q_api.py lines 369-375). -/
def toolUseFields (tool : Json) : Except String (List (String × Json)) := do
  let tid ← pyGet tool "toolUseId" (Json.str "")
  let name ← pyGet tool "name" (Json.str "")
  let input ← pyGet tool "input" (Json.obj [])
  .ok [("tool_use_id", tid), ("name", name), ("input", input)]

/-- Fields of a "metadata" event, copied from the chosen metadata/metering
payload (q_api.py lines 379-388). -/
def metadataFields (meta : Json) : Except String (List (String × Json)) := do
  let cid ← pyGet meta "conversationId" Json.null
  let uid ← pyGet meta "utteranceId" Json.null
  let total ← pyGet meta "totalTokens" Json.null
  let input ← pyGet meta "uncachedInputTokens" Json.null
  let output ← pyGet meta "outputTokens" Json.null
  let cread ← pyGet meta "cacheReadInputTokens" Json.null
  let cwrite ← pyGet meta "cacheWriteInputTokens" Json.null
  .ok [("conversation_id", cid), ("utterance_id", uid), ("total_tokens", total),
       ("input_tokens", input), ("output_tokens", output),
       ("cache_read_tokens", cread), ("cache_write_tokens", cwrite)]

/-- Fields of a "code" event (q_api.py lines 390-395). -/
def codeFields (code : Json) : Except String (List (String × Json)) := do
  let content ← pyGet code "content" (Json.str "")
  .ok [("content", content)]

/-- Fields of a "followup" event (q_api.py lines 397-402). -/
def followupFields (fp : Json) : Except String (List (String × Json)) := do
  let content ← pyGet fp "content" (Json.str "")
  .ok [("content", content)]

/-- Fields of an "intents" event (q_api.py lines 404-409). -/
def intentsFields (its : Json) : Except String (List (String × Json)) := do
  let intents ← pyGet its "intents" (Json.arr [])
  .ok [("intents", intents)]

/-- Fields of an "error" event (q_api.py lines 411-416). -/
def errorFields (err : Json) : Except String (List (String × Json)) := do
  let reason ← pyGet err "reason" (Json.str "Unknown error")
  .ok [("reason", reason)]

/-- Fields of a "web_links" event (q_api.py lines 418-423). -/
def webLinksFields (links : Json) : Except String (List (String × Json)) := do
  let l ← pyGet links "supplementaryWebLinks" (Json.arr [])
  .ok [("links", l)]

/-- Embedding of parse_assistant_response_event (q_api.py lines 334-429):
classification by marker-key presence in the source's fixed priority order.
The metadata branch reproduces the Python `a or b` on the two payload
lookups: the metadataEvent value is used only when it is truthy. -/
def parse_assistant_response_event (e : Json) : Except String Json :=
  if hasKey e "assistantResponseMessage" then
    withType "message" (do messageFields (← getItem e "assistantResponseMessage"))
  else if hasKey e "toolUseEvent" then
    withType "tool_use" (do toolUseFields (← getItem e "toolUseEvent"))
  else if hasKey e "metadataEvent" || hasKey e "meteringEvent" then
    withType "metadata" (do
      let a ← pyGet e "metadataEvent" Json.null
      let meta ← if truthy a then pure a else pyGet e "meteringEvent" (Json.obj [])
      metadataFields meta)
  else if hasKey e "codeEvent" then
    withType "code" (do codeFields (← getItem e "codeEvent"))
  else if hasKey e "followupPromptEvent" then
    withType "followup" (do followupFields (← getItem e "followupPromptEvent"))
  else if hasKey e "intentsEvent" then
    withType "intents" (do intentsFields (← getItem e "intentsEvent"))
  else if hasKey e "invalidStateEvent" then
    withType "error" (do errorFields (← getItem e "invalidStateEvent"))
  else if hasKey e "supplementaryWebLinksEvent" then
    withType "web_links" (do webLinksFields (← getItem e "supplementaryWebLinksEvent"))
  else
    withType "unknown" (.ok [("data", e)])

/-- One row of the list-models result (q_api.py lines 447-457).  is_default
is the Python comparison model.get("modelName") == default_model. -/
def modelRow (default_model : Json) (model : Json) : Except String Json := do
  let nameD ← pyGet model "modelName" (Json.str "")
  let name2 ← pyGet model "modelName" (Json.str "")
  let cw ← pyGet model "contextWindowTokens" Json.null
  let rm ← pyGet model "rateMultiplier" Json.null
  let ru ← pyGet model "rateUnit" Json.null
  let tl ← pyGet model "tokenLimits" (Json.obj [])
  let sit ← pyGet model "supportedInputTypes" (Json.arr [])
  let spc ← pyGet model "supportsPromptCache" (Json.bool false)
  let nameN ← pyGet model "modelName" Json.null
  .ok (Json.obj [("id", nameD), ("name", name2), ("context_window", cw),
       ("rate_multiplier", rm), ("rate_unit", ru), ("token_limits", tl),
       ("supported_input_types", sit), ("supports_prompt_cache", spc),
       ("is_default", Json.bool (jeq nameN default_model))])

/-- Python iteration `for x in j`: element list for a list, the one-char
strings of a str, the keys of a dict; TypeError for non-iterables. -/
def pyIterVals (j : Json) : Except String (List Json) :=
  match j with
  | .arr xs => .ok xs
  | .str s => .ok (s.toList.map fun c => Json.str (String.mk [c]))
  | .obj fs => .ok (fs.map fun kv => Json.str kv.1)
  | _ => .error "TypeError"

/-- Embedding of parse_list_models_response (q_api.py lines 432-459). -/
def parse_list_models_response (resp : Json) : Except String (List Json) := do
  let models ← pyGet resp "models" (Json.arr [])
  let default_model ← pyGet resp "defaultModel" Json.null
  let items ← pyIterVals models
  items.mapM (modelRow default_model)

/-- Embedding of get_q_api_headers (q_api.py lines 36-55).  The freshly
generated uuid of the amz-sdk-invocation-id header is passed in explicitly. -/
def get_q_api_headers (token target invocation_id : String) :
    List (String × String) :=
  [("Authorization", "Bearer " ++ token),
   ("Content-Type", "application/x-amz-json-1.0"),
   ("x-amz-target", target),
   ("x-amzn-codewhisperer-optout", "false"),
   ("User-Agent", "AmazonQ-For-CLI/1.23.1"),
   ("amz-sdk-invocation-id", invocation_id),
   ("amz-sdk-request", "attempt=1; max=3")]

/-- Embedding of get_kiro_headers (utils.py lines 60-88).  The auth
manager's fingerprint and the fresh uuid are passed in explicitly; the
x-amz-target header is appended only when the optional target is truthy. -/
def get_kiro_headers (fingerprint token : String) (target : Option String)
    (invocation_id : String) : List (String × String) :=
  let base :=
    [("Authorization", "Bearer " ++ token),
     ("Content-Type", "application/x-amz-json-1.0"),
     ("User-Agent", "AmazonQ-For-CLI/1.23.1"),
     ("x-amz-user-agent", "aws-sdk-rust/1.0.0 kiro-gateway-" ++ fingerprint.take 8),
     ("x-amzn-codewhisperer-optout", "false"),
     ("amz-sdk-invocation-id", invocation_id),
     ("amz-sdk-request", "attempt=1; max=3")]
  if optStrTruthy target then base ++ [("x-amz-target", target.getD "")] else base

/-- First-match header lookup. -/
def lookupHeader : List (String × String) → String → Option String
  | [], _ => none
  | (k2, v) :: rest, k => if k2 == k then some v else lookupHeader rest k

/-! SHA-256, as computed by hashlib.sha256 in get_machine_fingerprint
(utils.py lines 37-57).  32-bit words are Nat values reduced mod 2^32. -/

def M32 : Nat := 4294967296

def rotr (k n : Nat) : Nat := ((n >>> k) ||| (n <<< (32 - k))) % M32

def bigS0 (x : Nat) : Nat := rotr 2 x ^^^ rotr 13 x ^^^ rotr 22 x
def bigS1 (x : Nat) : Nat := rotr 6 x ^^^ rotr 11 x ^^^ rotr 25 x
def smallS0 (x : Nat) : Nat := rotr 7 x ^^^ rotr 18 x ^^^ (x >>> 3)
def smallS1 (x : Nat) : Nat := rotr 17 x ^^^ rotr 19 x ^^^ (x >>> 10)
def chFn (e f g : Nat) : Nat := (e &&& f) ^^^ ((e ^^^ (M32 - 1)) &&& g)
def majFn (a b c : Nat) : Nat := (a &&& b) ^^^ (a &&& c) ^^^ (b &&& c)

def shaK : List Nat :=
  [1116352408, 1899447441, 3049323471, 3921009573, 961987163, 1508970993,
   2453635748, 2870763221, 3624381080, 310598401, 607225278, 1426881987,
   1925078388, 2162078206, 2614888103, 3248222580, 3835390401, 4022224774,
   264347078, 604807628, 770255983, 1249150122, 1555081692, 1996064986,
   2554220882, 2821834349, 2952996808, 3210313671, 3336571891, 3584528711,
   113926993, 338241895, 666307205, 773529912, 1294757372, 1396182291,
   1695183700, 1986661051, 2177026350, 2456956037, 2730485921, 2820302411,
   3259730800, 3345764771, 3516065817, 3600352804, 4094571909, 275423344,
   430227734, 506948616, 659060556, 883997877, 958139571, 1322822218,
   1537002063, 1747873779, 1955562222, 2024104815, 2227730452, 2361852424,
   2428436474, 2756734187, 3204031479, 3329325298]

structure Hash8 where
  a : Nat
  b : Nat
  c : Nat
  d : Nat
  e : Nat
  f : Nat
  g : Nat
  h : Nat

def initH : Hash8 :=
  ⟨1779033703, 3144134277, 1013904242, 2773480762,
   1359893119, 2600822924, 528734635, 1541459225⟩

/-- Big-endian 8-byte encoding of the bit length. -/
def beBytes8 (n : Nat) : List Nat :=
  [(n >>> 56) &&& 255, (n >>> 48) &&& 255, (n >>> 40) &&& 255,
   (n >>> 32) &&& 255, (n >>> 24) &&& 255, (n >>> 16) &&& 255,
   (n >>> 8) &&& 255, n &&& 255]

/-- SHA-256 padding: append 0x80, zero bytes to 56 mod 64, then the
big-endian 64-bit bit length. -/
def padMessage (msg : List Nat) : List Nat :=
  let zeros := (64 - ((msg.length + 9) % 64)) % 64
  msg ++ [0x80] ++ List.replicate zeros 0 ++ beBytes8 (msg.length * 8)

def chunks64 (l : List Nat) : List (List Nat) :=
  if _h : l = [] then [] else l.take 64 :: chunks64 (l.drop 64)
termination_by l.length
decreasing_by
  simp only [List.length_drop]
  have : 0 < l.length := List.length_pos.mpr _h
  omega

/-- Big-endian packing of bytes into 32-bit words. -/
def beWords : List Nat → List Nat
  | b0 :: b1 :: b2 :: b3 :: rest =>
      ((b0 <<< 24) ||| (b1 <<< 16) ||| (b2 <<< 8) ||| b3) :: beWords rest
  | _ => []

/-- One message-schedule extension step: append word number ws.length. -/
def schedStep (ws : List Nat) : List Nat :=
  let n := ws.length
  ws ++ [(ws.getD (n - 16) 0 + smallS0 (ws.getD (n - 15) 0) +
          ws.getD (n - 7) 0 + smallS1 (ws.getD (n - 2) 0)) % M32]

/-- Extend the 16 block words to the 64 schedule words. -/
def msgSched (ws : List Nat) : List Nat :=
  (List.range 48).foldl (fun acc _ => schedStep acc) ws

def roundFn (st : Hash8) (wk : Nat × Nat) : Hash8 :=
  let t1 := (st.h + bigS1 st.e + chFn st.e st.f st.g + wk.2 + wk.1) % M32
  let t2 := (bigS0 st.a + majFn st.a st.b st.c) % M32
  ⟨(t1 + t2) % M32, st.a, st.b, st.c, (st.d + t1) % M32, st.e, st.f, st.g⟩

def addHash (x y : Hash8) : Hash8 :=
  ⟨(x.a + y.a) % M32, (x.b + y.b) % M32, (x.c + y.c) % M32, (x.d + y.d) % M32,
   (x.e + y.e) % M32, (x.f + y.f) % M32, (x.g + y.g) % M32, (x.h + y.h) % M32⟩

def compress (st : Hash8) (block : List Nat) : Hash8 :=
  let ws := msgSched (beWords block)
  addHash st ((ws.zip shaK).foldl roundFn st)

def sha256Hash (msg : List Nat) : Hash8 :=
  (chunks64 (padMessage msg)).foldl compress initH

def hexChars : List Char := "0123456789abcdef".toList

def hexDigit (m : Nat) : Char := hexChars.getD m '0'

/-- The 8 lowercase hex characters of one 32-bit word. -/
def wordHex (w : Nat) : List Char :=
  [hexDigit ((w >>> 28) &&& 15), hexDigit ((w >>> 24) &&& 15),
   hexDigit ((w >>> 20) &&& 15), hexDigit ((w >>> 16) &&& 15),
   hexDigit ((w >>> 12) &&& 15), hexDigit ((w >>> 8) &&& 15),
   hexDigit ((w >>> 4) &&& 15), hexDigit (w &&& 15)]

/-- hexdigest of a hash state: 64 lowercase hex characters. -/
def hexOfHash (st : Hash8) : String :=
  String.mk (wordHex st.a ++ wordHex st.b ++ wordHex st.c ++ wordHex st.d ++
             wordHex st.e ++ wordHex st.f ++ wordHex st.g ++ wordHex st.h)

/-- UTF-8 bytes of a string: Python str.encode(). -/
def strBytes (s : String) : List Nat := s.toUTF8.toList.map UInt8.toNat

/-- hashlib.sha256(s.encode()).hexdigest(). -/
def sha256hex (s : String) : String := hexOfHash (sha256Hash (strBytes s))

/-- Embedding of get_machine_fingerprint (utils.py lines 37-57).  The
socket/getpass identity lookup is passed in explicitly: some (hostname,
username) when the lookup succeeds, none when it raises.  The except
branch hashes the fixed constant b"default-kiro-gateway", so the function
returns a digest on every input and never raises. -/
def get_machine_fingerprint (identity : Option (String × String)) : String :=
  match identity with
  | some (hostname, username) =>
      sha256hex (hostname ++ "-" ++ username ++ "-kiro-gateway")
  | none => sha256hex "default-kiro-gateway"

/-! Helper constructions and lemmas for the claims. -/

/-- A user-role message with the given content. -/
def userMsg (c : Json) : Json := .obj [("role", .str "user"), ("content", c)]

/-- An assistant-role message with the given content. -/
def asstMsg (c : Json) : Json := .obj [("role", .str "assistant"), ("content", c)]

/-- The message list of an alternating (user, assistant) pair sequence. -/
def pairsList (pairs : List (Json × Json)) : List Json :=
  (pairs.map fun p => [userMsg p.1, asstMsg p.2]).join

def tailMsgs : Option Json → List Json
  | some c => [userMsg c]
  | none => []

/-- An alternating user, assistant, ... message list, optionally ending in
one final unpaired user message. -/
def altMessages (pairs : List (Json × Json)) (tl : Option Json) : List Json :=
  pairsList pairs ++ tailMsgs tl

/-- The value content flattens to, when flattening succeeds. -/
def flatVal (c : Json) : Json := (flattenContent c).toOption.getD Json.null

/-- Flattening the content succeeds (true of every well-formed message
content: a string, or a part list whose text fields are strings). -/
def flatOk (c : Json) : Prop := flattenContent c = .ok (flatVal c)

/-- The history turns an alternating pair list must produce. -/
def turnsOf (pairs : List (Json × Json)) : List Json :=
  pairs.map fun p => mkTurn (mkUserInputMessage (flatVal p.1)) (flatVal p.2)

/-- Key lookup on a JSON object value. -/
def jlookup (j : Json) (k : String) : Option Json :=
  match j with
  | .obj fs => getField fs k
  | _ => none

/-- The turn list of a built conversation state (empty history is encoded
by an absent history key). -/
def historyTurns (st : Json) : List Json :=
  match jlookup st "history" with
  | some (.arr l) => l
  | _ => []

/-- The conversation-state fields before the optional currentMessage:
chatTriggerType, then conversationId if supplied, then history if
non-empty (q_api.py lines 119-129). -/
def baseFields (cid : Option String) (tt : String) (hist : List Json) :
    List (String × Json) :=
  let fs1 := [("chatTriggerType", Json.str tt)]
  let fs2 := if optStrTruthy cid then
      fs1 ++ [("conversationId", Json.str (cid.getD ""))]
    else fs1
  if hist.isEmpty then fs2 else fs2 ++ [("history", Json.arr hist)]

@[simp]
lemma pureOk {α : Type} (a : α) : (pure a : Except String α) = Except.ok a := rfl

@[simp]
lemma okBind {α β : Type} (a : α) (f : α → Except String β) :
    (Except.ok a : Except String α) >>= f = f a := rfl

@[simp]
lemma errBind {α β : Type} (e : String) (f : α → Except String β) :
    (Except.error e : Except String α) >>= f = Except.error e := rfl

@[simp]
lemma buildLoopAux_nil (st : List Json × Option Json) :
    buildLoopAux [] st = .ok st := rfl

lemma buildLoopAux_cons (m : Json) (ms : List Json) (st : List Json × Option Json) :
    buildLoopAux (m :: ms) st = convStep st m >>= fun st2 => buildLoopAux ms st2 := rfl

lemma buildLoopAux_append (xs ys : List Json) (st : List Json × Option Json) :
    buildLoopAux (xs ++ ys) st =
      buildLoopAux xs st >>= fun st2 => buildLoopAux ys st2 := by
  induction xs generalizing st with
  | nil => simp
  | cons m ms ih =>
      rw [List.cons_append, buildLoopAux_cons, buildLoopAux_cons]
      cases hc : convStep st m with
      | error e => simp
      | ok st2 => simp [ih]

lemma convStep_user (histo : List Json) (cur : Option Json) (c : Json) :
    convStep (histo, cur) (userMsg c) =
      (flattenContent c).map fun fc => (histo, some (mkUserInputMessage fc)) := by
  show (flattenContent c).bind (fun content =>
    pure (histo, some (mkUserInputMessage content))) = _
  cases flattenContent c <;> rfl

lemma convStep_asst_pending (histo : List Json) (cm c : Json)
    (ht : truthy cm = true) :
    convStep (histo, some cm) (asstMsg c) =
      (flattenContent c).map fun fc => (histo ++ [mkTurn cm fc], none) := by
  show (flattenContent c).bind (fun content =>
    if optTruthy (some cm) then pure (histo ++ [mkTurn cm content], none)
    else pure (histo, some cm)) = _
  cases flattenContent c <;> simp [optTruthy, ht, Except.map, Except.bind]

lemma convStep_asst_nopending (histo : List Json) (c : Json) :
    convStep (histo, none) (asstMsg c) =
      (flattenContent c).map fun _ => (histo, none) := by
  show (flattenContent c).bind (fun content =>
    if optTruthy (none : Option Json) then pure (histo ++ [mkTurn (Json.null) content], none)
    else pure (histo, none)) = _
  cases flattenContent c <;> rfl

@[simp]
lemma truthy_mkUserInputMessage (c : Json) :
    truthy (mkUserInputMessage c) = true := rfl

@[simp]
lemma okMap {α β : Type} (a : α) (f : α → β) :
    (Except.ok a : Except String α).map f = Except.ok (f a) := rfl

@[simp]
lemma errMap {α β : Type} (e : String) (f : α → β) :
    (Except.error e : Except String α).map f = Except.error e := rfl

lemma pairsList_cons (p : Json × Json) (ps : List (Json × Json)) :
    pairsList (p :: ps) = userMsg p.1 :: asstMsg p.2 :: pairsList ps := rfl

lemma pairsList_concat (ps : List (Json × Json)) (p : Json × Json) :
    pairsList (ps ++ [p]) = pairsList ps ++ [userMsg p.1, asstMsg p.2] := by
  simp [pairsList]

lemma loop_pairs (pairs : List (Json × Json)) (histo : List Json)
    (hp : ∀ p ∈ pairs, flatOk p.1 ∧ flatOk p.2) :
    buildLoopAux (pairsList pairs) (histo, none) =
      .ok (histo ++ turnsOf pairs, none) := by
  induction pairs generalizing histo with
  | nil => simp [pairsList, turnsOf]
  | cons p ps ih =>
      have hp1 : flatOk p.1 := (hp p (by simp)).1
      have hp2 : flatOk p.2 := (hp p (by simp)).2
      rw [pairsList_cons, buildLoopAux_cons, convStep_user, hp1, okMap, okBind,
          buildLoopAux_cons, convStep_asst_pending _ _ _ (truthy_mkUserInputMessage _),
          hp2, okMap, okBind, ih _ (fun q hq => hp q (List.mem_cons_of_mem _ hq))]
      simp [turnsOf]

lemma build_state_cur (messages : List Json) (mid : String)
    (cid parn : Option String) (tt : String) (hist : List Json) (cm : Json)
    (hl : buildLoopAux messages ([], none) = .ok (hist, some cm))
    (ht : truthy cm = true) :
    build_conversation_state messages mid cid parn tt =
      .ok (Json.obj (baseFields cid tt hist ++ [("currentMessage", cm)])) := by
  unfold build_conversation_state
  rw [hl, okBind]
  simp only [optTruthy, ht, if_true, baseFields]
  rfl

lemma build_state_scan (messages : List Json) (mid : String)
    (cid parn : Option String) (tt : String) (hist : List Json)
    (hl : buildLoopAux messages ([], none) = .ok (hist, none))
    (hne : messages.isEmpty = false)
    (sc : Option Json) (hs : scanLastUser messages.reverse = .ok sc) :
    build_conversation_state messages mid cid parn tt =
      .ok (Json.obj (match sc with
        | some cm => baseFields cid tt hist ++ [("currentMessage", cm)]
        | none => baseFields cid tt hist)) := by
  unfold build_conversation_state
  rw [hl, okBind]
  simp only [optTruthy, Bool.false_eq_true, if_false, hne, Bool.not_false, if_true, hs, okBind]
  cases sc <;> simp [baseFields]

lemma build_state_nil (mid : String) (cid parn : Option String) (tt : String) :
    build_conversation_state [] mid cid parn tt =
      .ok (Json.obj (baseFields cid tt [])) := rfl

lemma getField_append_none (fs1 fs2 : List (String × Json)) (k : String)
    (h : getField fs1 k = none) :
    getField (fs1 ++ fs2) k = getField fs2 k := by
  induction fs1 with
  | nil => rfl
  | cons kv rest ih =>
      rw [List.cons_append]
      by_cases hk : kv.1 == k
      · exfalso
        simp [getField, hk] at h
      · simp only [getField, hk, if_false, Bool.false_eq_true] at h ⊢
        exact ih h

lemma getField_append_some (fs1 fs2 : List (String × Json)) (k : String) (v : Json)
    (h : getField fs1 k = some v) :
    getField (fs1 ++ fs2) k = some v := by
  induction fs1 with
  | nil => simp [getField] at h
  | cons kv rest ih =>
      rw [List.cons_append]
      by_cases hk : kv.1 == k
      · simp only [getField, hk, if_true] at h ⊢
        exact h
      · simp only [getField, hk, if_false, Bool.false_eq_true] at h ⊢
        exact ih h

lemma baseFields_no_cm (cid : Option String) (tt : String) (hist : List Json) :
    getField (baseFields cid tt hist) "currentMessage" = none := by
  cases hc : optStrTruthy cid <;> cases hh : hist.isEmpty <;>
    simp [baseFields, hc, hh] <;> rfl

lemma baseFields_history (cid : Option String) (tt : String) (hist : List Json) :
    getField (baseFields cid tt hist) "history" =
      if hist.isEmpty then none else some (Json.arr hist) := by
  cases hc : optStrTruthy cid <;> cases hh : hist.isEmpty <;>
    simp [baseFields, hc, hh] <;> rfl

@[simp]
lemma scanLastUser_nil : scanLastUser [] = .ok none := rfl

lemma scanLastUser_cons (m : Json) (rest : List Json) :
    scanLastUser (m :: rest) =
      pyGet m "role" Json.null >>= fun role =>
        if jeq role (Json.str "user") then
          pyGet m "content" (Json.str "") >>= fun rawContent =>
            flattenContent rawContent >>= fun content =>
              .ok (some (mkUserInputMessage content))
        else scanLastUser rest := rfl

lemma scanLastUser_asst (ac : Json) (rest : List Json) :
    scanLastUser (asstMsg ac :: rest) = scanLastUser rest := rfl

lemma scanLastUser_user (c : Json) (rest : List Json) :
    scanLastUser (userMsg c :: rest) =
      (flattenContent c).map fun fc => some (mkUserInputMessage fc) := by
  show (flattenContent c).bind (fun content => .ok (some (mkUserInputMessage content))) = _
  cases flattenContent c <;> rfl

lemma scanLastUser_mid_asst (xs ys : List Json) (ac : Json) :
    scanLastUser (xs ++ asstMsg ac :: ys) = scanLastUser (xs ++ ys) := by
  induction xs with
  | nil => simp only [List.nil_append, scanLastUser_asst]
  | cons m ms ih =>
      rw [List.cons_append, List.cons_append, scanLastUser_cons, scanLastUser_cons]
      cases hr : pyGet m "role" Json.null with
      | error e => rfl
      | ok role =>
          simp only [okBind]
          cases hje : jeq role (Json.str "user") with
          | true => simp [hje]
          | false => simp [hje, ih]

lemma turnsOf_length (pairs : List (Json × Json)) :
    (turnsOf pairs).length = pairs.length := by
  simp [turnsOf]

lemma jlookup_built_cm (cid : Option String) (tt : String) (hist : List Json)
    (cm : Json) :
    jlookup (Json.obj (baseFields cid tt hist ++ [("currentMessage", cm)]))
      "currentMessage" = some cm := by
  show getField (baseFields cid tt hist ++ [("currentMessage", cm)])
    "currentMessage" = some cm
  rw [getField_append_none _ _ _ (baseFields_no_cm cid tt hist)]
  rfl

lemma historyTurns_built (cid : Option String) (tt : String) (hist : List Json)
    (extra : List (String × Json)) (hx : getField extra "history" = none) :
    historyTurns (Json.obj (baseFields cid tt hist ++ extra)) = hist := by
  show (match getField (baseFields cid tt hist ++ extra) "history" with
    | some (Json.arr l) => l
    | _ => []) = hist
  cases hh : hist.isEmpty with
  | true =>
      rw [getField_append_none _ _ _ (by rw [baseFields_history cid tt hist, hh]; rfl), hx]
      exact (List.isEmpty_iff.mp hh).symm
  | false =>
      rw [getField_append_some _ _ _ _ (by rw [baseFields_history cid tt hist, hh]; rfl)]

/-- Claim C2: for every message list of the alternating form user,
assistant, user, assistant, ... (whose contents flatten without error),
build_conversation_state emits a history whose turns are exactly one per
complete adjacent (user, assistant) pair, in input order, and sets
currentMessage to the flattened content of the final unpaired user
message when one exists. -/
theorem c2_alternating_pairs (pairs : List (Json × Json)) (tl : Option Json)
    (hp : ∀ p ∈ pairs, flatOk p.1 ∧ flatOk p.2)
    (htl : ∀ c ∈ tl, flatOk c)
    (mid : String) (cid parn : Option String) (tt : String) :
    ∃ st, build_conversation_state (altMessages pairs tl) mid cid parn tt = .ok st ∧
      historyTurns st = turnsOf pairs ∧
      (historyTurns st).length = pairs.length ∧
      ∀ c ∈ tl, jlookup st "currentMessage" =
        some (mkUserInputMessage (flatVal c)) := by
  cases tl with
  | some c =>
      have hc : flatOk c := htl c rfl
      have hloop : buildLoopAux (altMessages pairs (some c)) ([], none) =
          .ok (turnsOf pairs, some (mkUserInputMessage (flatVal c))) := by
        rw [altMessages, buildLoopAux_append, loop_pairs pairs [] hp, okBind]
        rw [show tailMsgs (some c) = [userMsg c] from rfl, buildLoopAux_cons,
            convStep_user, hc, okMap, okBind, buildLoopAux_nil]
        simp
      refine ⟨_, build_state_cur _ mid cid parn tt _ _ hloop
        (truthy_mkUserInputMessage _), ?_, ?_, ?_⟩
      · exact historyTurns_built cid tt (turnsOf pairs)
          [("currentMessage", mkUserInputMessage (flatVal c))] rfl
      · rw [historyTurns_built cid tt (turnsOf pairs)
          [("currentMessage", mkUserInputMessage (flatVal c))] rfl, turnsOf_length]
      · intro c2 hc2
        cases hc2
        exact jlookup_built_cm cid tt _ _
  | none =>
      rcases pairs.eq_nil_or_concat with rfl | ⟨ps, p, rfl⟩
      · have hb := historyTurns_built cid tt [] [] rfl
        rw [List.append_nil] at hb
        refine ⟨_, build_state_nil mid cid parn tt, hb, ?_, ?_⟩
        · rw [hb]; rfl
        · intro c2 hc2
          cases hc2
      · simp only [List.concat_eq_append] at hp ⊢
        have hp1 : flatOk p.1 := (hp p (by simp)).1
        have hloop : buildLoopAux (altMessages (ps ++ [p]) none) ([], none) =
            .ok (turnsOf (ps ++ [p]), none) := by
          rw [show altMessages (ps ++ [p]) none = pairsList (ps ++ [p]) by
                simp [altMessages, tailMsgs],
              loop_pairs _ [] hp]
          simp
        have hscan : scanLastUser (altMessages (ps ++ [p]) none).reverse =
            .ok (some (mkUserInputMessage (flatVal p.1))) := by
          rw [show altMessages (ps ++ [p]) none = pairsList (ps ++ [p]) by
                simp [altMessages, tailMsgs],
              pairsList_concat, List.reverse_append]
          rw [show ([userMsg p.1, asstMsg p.2].reverse : List Json) =
                asstMsg p.2 :: userMsg p.1 :: [] from rfl]
          rw [List.cons_append, List.cons_append, List.nil_append,
              scanLastUser_asst, scanLastUser_user, hp1, okMap]
        have hne : (altMessages (ps ++ [p]) none).isEmpty = false := by
          simp [altMessages, tailMsgs, pairsList_concat]
        refine ⟨Json.obj (baseFields cid tt (turnsOf (ps ++ [p])) ++
          [("currentMessage", mkUserInputMessage (flatVal p.1))]), ?_, ?_, ?_, ?_⟩
        · exact build_state_scan _ mid cid parn tt _ hloop hne _ hscan
        · exact historyTurns_built cid tt (turnsOf (ps ++ [p]))
            [("currentMessage", mkUserInputMessage (flatVal p.1))] rfl
        · rw [historyTurns_built cid tt (turnsOf (ps ++ [p]))
            [("currentMessage", mkUserInputMessage (flatVal p.1))] rfl, turnsOf_length]
        · intro c2 hc2
          cases hc2

/-- Claim C6: for every message list consisting of a single user-role
message, build_conversation_state produces an empty history (no history
key) and a currentMessage whose content is the message's flattened
content; flattening a part list joins the text parts with newline and
ignores non-text parts. -/
theorem c6_single_user (c fc : Json) (hc : flattenContent c = .ok fc)
    (mid : String) (cid parn : Option String) (tt : String) :
    ∃ st, build_conversation_state [userMsg c] mid cid parn tt = .ok st ∧
      jlookup st "history" = none ∧
      jlookup st "currentMessage" = some (mkUserInputMessage fc) ∧
      jlookup (mkUserInputMessage fc) "content" = some fc ∧
      (∀ parts texts, asStrList (collectTextParts parts) = some texts →
        flattenContent (Json.arr parts) =
          .ok (Json.str (String.intercalate "\n" texts))) := by
  have hloop : buildLoopAux [userMsg c] ([], none) =
      .ok ([], some (mkUserInputMessage fc)) := by
    rw [buildLoopAux_cons, convStep_user, hc, okMap, okBind, buildLoopAux_nil]
  refine ⟨_, build_state_cur _ mid cid parn tt _ _ hloop
    (truthy_mkUserInputMessage _), ?_, jlookup_built_cm cid tt [] _, rfl, ?_⟩
  · show getField (baseFields cid tt [] ++
      [("currentMessage", mkUserInputMessage fc)]) "history" = none
    rw [getField_append_none _ _ _
      (by rw [baseFields_history cid tt []]; rfl)]
    rfl
  · intro parts texts h
    simp [flattenContent, pyJoin, h]

/-- Claim C7: an assistant-role message arriving while no unpaired user
message is pending adds nothing at all: the built conversation state is
identical to the one built from the list without it (in particular the
history length is unchanged and no new error can arise from it). -/
theorem c7_orphan_assistant (l1 l2 : List Json) (ac : Json) (h1 : List Json)
    (hpend : buildLoopAux l1 ([], none) = .ok (h1, none))
    (hac : flatOk ac)
    (mid : String) (cid parn : Option String) (tt : String) :
    build_conversation_state (l1 ++ asstMsg ac :: l2) mid cid parn tt =
      build_conversation_state (l1 ++ l2) mid cid parn tt := by
  have hloop : buildLoopAux (l1 ++ asstMsg ac :: l2) ([], none) =
      buildLoopAux (l1 ++ l2) ([], none) := by
    rw [buildLoopAux_append, buildLoopAux_append, hpend, okBind, okBind,
        buildLoopAux_cons, convStep_asst_nopending, hac, okMap, okBind]
  have hsc : scanLastUser (l1 ++ asstMsg ac :: l2).reverse =
      scanLastUser (l1 ++ l2).reverse := by
    rw [List.reverse_append, List.reverse_cons, List.append_assoc,
        List.singleton_append, scanLastUser_mid_asst, List.reverse_append]
  unfold build_conversation_state
  rw [hloop]
  cases hres : buildLoopAux (l1 ++ l2) ([], none) with
  | error e => rfl
  | ok res =>
      simp only [okBind]
      rcases res with ⟨hist, cur⟩
      rcases cur with _ | cm
      · simp only [optTruthy, Bool.false_eq_true, if_false]
        have hne1 : (l1 ++ asstMsg ac :: l2).isEmpty = false := by simp
        cases h2e : (l1 ++ l2).isEmpty with
        | true =>
            rcases List.append_eq_nil.mp (List.isEmpty_iff.mp h2e) with ⟨rfl, rfl⟩
            rfl
        | false =>
            simp only [hne1, h2e, Bool.not_false, if_true, hsc]
      · cases ht : truthy cm with
        | false =>
            simp only [optTruthy, ht, Bool.false_eq_true, if_false]
            have hne1 : (l1 ++ asstMsg ac :: l2).isEmpty = false := by simp
            cases h2e : (l1 ++ l2).isEmpty with
            | true =>
                rcases List.append_eq_nil.mp (List.isEmpty_iff.mp h2e) with ⟨rfl, rfl⟩
                rfl
            | false =>
                simp only [hne1, h2e, Bool.not_false, if_true, hsc]
        | true => simp only [optTruthy, ht, if_true]

/-- Claim C1 (refuted by the code): with a message list containing no
user-role message (so the built conversation state has no currentMessage)
and a non-empty tools list holding a function-type tool, the request
builder does not drop the tools silently: the unguarded item assignment
request["conversationState"]["currentMessage"][...] at q_api.py line 210
raises KeyError("currentMessage"). -/
theorem c1_tools_keyerror :
    build_generate_assistant_request
      [Json.obj [("role", Json.str "assistant"), ("content", Json.str "hi")]]
      "claude-sonnet-4-5" none none false
      (some [Json.obj [("type", Json.str "function"),
                       ("function", Json.obj [("name", Json.str "f")])]]) =
      .error ("KeyError: " ++ "currentMessage") := rfl

/-- Claim C10: build_conversation_state never reads its model_id and
profile_arn parameters, so its output is identical for any two values of
each. -/
theorem c10_params_unread (messages : List Json) (cid : Option String)
    (tt : String) (mid1 mid2 : String) (parn1 parn2 : Option String) :
    build_conversation_state messages mid1 cid parn1 tt =
      build_conversation_state messages mid2 cid parn2 tt := rfl

/-- The canonical event kinds of the normalizer. -/
def eventKinds : List String :=
  ["message", "tool_use", "metadata", "code", "followup", "intents", "error",
   "web_links", "unknown"]

/-- The marker keys the normalizer dispatches on. -/
def markerKeys : List String :=
  ["assistantResponseMessage", "toolUseEvent", "metadataEvent", "meteringEvent",
   "codeEvent", "followupPromptEvent", "intentsEvent", "invalidStateEvent",
   "supplementaryWebLinksEvent"]

def noMarker (e : Json) : Prop := ∀ k ∈ markerKeys, hasKey e k = false

lemma withType_kind (k : String) (m : Except String (List (String × Json)))
    (r : Json) (h : withType k m = .ok r) :
    jlookup r "type" = some (Json.str k) := by
  cases hm : m with
  | error e => rw [hm] at h; simp [withType] at h
  | ok flds =>
      rw [hm] at h
      simp only [withType, okMap, Except.ok.injEq] at h
      subst h
      rfl

/-- Claim C3 (amended): whenever parse_assistant_response_event returns,
its result carries exactly one kind tag from the fixed canonical set; and
on any JSON object carrying none of the marker keys it always returns the
unknown kind with the original input object preserved unmodified under
the data field.  (Totality over all JSON objects fails: a marker key
whose value is not itself an object raises AttributeError, see the
companion counterexample.) -/
theorem c3_classification :
    (∀ (fs : List (String × Json)) (r : Json),
        parse_assistant_response_event (Json.obj fs) = .ok r →
        ∃ t ∈ eventKinds, jlookup r "type" = some (Json.str t)) ∧
    (∀ fs : List (String × Json), noMarker (Json.obj fs) →
        parse_assistant_response_event (Json.obj fs) =
          .ok (Json.obj [("type", Json.str "unknown"), ("data", Json.obj fs)])) := by
  constructor
  · intro fs r h
    unfold parse_assistant_response_event at h
    split_ifs at h
    · exact ⟨"message", by decide, withType_kind _ _ _ h⟩
    · exact ⟨"tool_use", by decide, withType_kind _ _ _ h⟩
    · exact ⟨"metadata", by decide, withType_kind _ _ _ h⟩
    · exact ⟨"code", by decide, withType_kind _ _ _ h⟩
    · exact ⟨"followup", by decide, withType_kind _ _ _ h⟩
    · exact ⟨"intents", by decide, withType_kind _ _ _ h⟩
    · exact ⟨"error", by decide, withType_kind _ _ _ h⟩
    · exact ⟨"web_links", by decide, withType_kind _ _ _ h⟩
    · exact ⟨"unknown", by decide, withType_kind _ _ _ h⟩
  · intro fs hnm
    have h1 := hnm "assistantResponseMessage" (by decide)
    have h2 := hnm "toolUseEvent" (by decide)
    have h3 := hnm "metadataEvent" (by decide)
    have h4 := hnm "meteringEvent" (by decide)
    have h5 := hnm "codeEvent" (by decide)
    have h6 := hnm "followupPromptEvent" (by decide)
    have h7 := hnm "intentsEvent" (by decide)
    have h8 := hnm "invalidStateEvent" (by decide)
    have h9 := hnm "supplementaryWebLinksEvent" (by decide)
    unfold parse_assistant_response_event
    simp only [h1, h2, h3, h4, h5, h6, h7, h8, h9, Bool.or_self,
      Bool.false_eq_true, if_false]
    rfl

/-- Claim C3 counterexample: the parser is not total on JSON objects.  On
the object mapping the code marker to a non-object value, the Python
source calls .get on that value (q_api.py line 394) and raises
AttributeError instead of returning an event. -/
theorem c3_not_total :
    parse_assistant_response_event (Json.obj [("codeEvent", Json.str "x")]) =
      .error "AttributeError" := rfl

/-- Witness for the amended C3 theorem at concrete inputs. -/
theorem c3_classification_witness :
    (∃ t ∈ eventKinds,
      jlookup (Json.obj [("type", Json.str "unknown"),
        ("data", Json.obj [("x", Json.num 1)])]) "type" = some (Json.str t)) ∧
    parse_assistant_response_event (Json.obj [("x", Json.num 1)]) =
      .ok (Json.obj [("type", Json.str "unknown"),
        ("data", Json.obj [("x", Json.num 1)])]) :=
  ⟨c3_classification.1 [("x", Json.num 1)] _ rfl,
   c3_classification.2 [("x", Json.num 1)] (by unfold noMarker; decide)⟩

/-- Claim C4 (amended): on an event carrying both the metadata and the
metering marker keys (and no higher-priority marker), the parser
classifies it as a metadata event and copies its fields from the
metadataEvent value provided that value is truthy; a falsy metadataEvent
value (such as an empty object) makes the Python `or` fall through to the
meteringEvent value instead. -/
theorem c4_metadata_preference (fs : List (String × Json)) (md : Json)
    (h1 : hasKey (Json.obj fs) "assistantResponseMessage" = false)
    (h2 : hasKey (Json.obj fs) "toolUseEvent" = false)
    (h3 : getField fs "metadataEvent" = some md)
    (h4 : hasKey (Json.obj fs) "meteringEvent" = true)
    (ht : truthy md = true) :
    parse_assistant_response_event (Json.obj fs) =
      withType "metadata" (metadataFields md) := by
  have hm : hasKey (Json.obj fs) "metadataEvent" = true := by
    simp [hasKey, h3]
  unfold parse_assistant_response_event
  simp only [h1, h2, hm, Bool.true_or, if_true, Bool.false_eq_true, if_false,
    pyGet, h3, Option.getD_some, okBind, ht, pureOk]

/-- Claim C4 counterexample: on the concrete event whose metadataEvent
value is the empty object (falsy) while its meteringEvent value carries a
conversation id, the parser's output takes its conversation_id from the
meteringEvent value, and differs from the output that copying from the
metadataEvent value would give. -/
theorem c4_falsy_metadata_cex :
    (parse_assistant_response_event (Json.obj [("metadataEvent", Json.obj []),
        ("meteringEvent", Json.obj [("conversationId", Json.str "c")])])).map
      (fun r => jeq ((jlookup r "conversation_id").getD Json.null) (Json.str "c"))
      = .ok true ∧
    (withType "metadata" (metadataFields (Json.obj []))).map
      (fun r => jeq ((jlookup r "conversation_id").getD Json.null) (Json.str "c"))
      = .ok false := ⟨rfl, rfl⟩

/-- Witness for the amended C4 theorem at a concrete two-marker event. -/
theorem c4_metadata_preference_witness :
    parse_assistant_response_event (Json.obj
        [("metadataEvent", Json.obj [("conversationId", Json.str "a")]),
         ("meteringEvent", Json.obj [("conversationId", Json.str "b")])]) =
      withType "metadata" (metadataFields
        (Json.obj [("conversationId", Json.str "a")])) :=
  c4_metadata_preference
    [("metadataEvent", Json.obj [("conversationId", Json.str "a")]),
     ("meteringEvent", Json.obj [("conversationId", Json.str "b")])]
    (Json.obj [("conversationId", Json.str "a")]) rfl rfl rfl rfl rfl

/-- The modelName value of a model entry (absent encoded as null, as in
Python model.get("modelName")). -/
def nameOf (m : Json) : Json :=
  match m with
  | .obj mfs => (getField mfs "modelName").getD Json.null
  | _ => Json.null

/-- Whether a parsed model row is flagged as the default model. -/
def isDefaultRow (r : Json) : Bool :=
  match jlookup r "is_default" with
  | some (.bool b) => b
  | _ => false

/-- The row modelRow builds for a dict model entry. -/
def rowOf (default_model : Json) (mfs : List (String × Json)) : Json :=
  Json.obj [("id", (getField mfs "modelName").getD (Json.str "")),
    ("name", (getField mfs "modelName").getD (Json.str "")),
    ("context_window", (getField mfs "contextWindowTokens").getD Json.null),
    ("rate_multiplier", (getField mfs "rateMultiplier").getD Json.null),
    ("rate_unit", (getField mfs "rateUnit").getD Json.null),
    ("token_limits", (getField mfs "tokenLimits").getD (Json.obj [])),
    ("supported_input_types", (getField mfs "supportedInputTypes").getD (Json.arr [])),
    ("supports_prompt_cache", (getField mfs "supportsPromptCache").getD (Json.bool false)),
    ("is_default", Json.bool (jeq ((getField mfs "modelName").getD Json.null) default_model))]

lemma modelRow_obj (default_model : Json) (mfs : List (String × Json)) :
    modelRow default_model (Json.obj mfs) = .ok (rowOf default_model mfs) := rfl

lemma isDefaultRow_rowOf (default_model : Json) (mfs : List (String × Json)) :
    isDefaultRow (rowOf default_model mfs) =
      jeq (nameOf (Json.obj mfs)) default_model := rfl

lemma mapM_modelRow (default_model : Json) (ms : List Json)
    (hwf : ∀ m ∈ ms, ∃ mfs, m = Json.obj mfs) :
    ∃ out, ms.mapM (modelRow default_model) = .ok out ∧
      out.length = ms.length ∧
      out.countP isDefaultRow =
        ms.countP (fun m => jeq (nameOf m) default_model) := by
  induction ms with
  | nil => exact ⟨[], rfl, rfl, rfl⟩
  | cons m rest ih =>
      obtain ⟨mfs, rfl⟩ := hwf m (by simp)
      obtain ⟨out, hout, hlen, hcnt⟩ := ih (fun q hq => hwf q (by simp [hq]))
      refine ⟨rowOf default_model mfs :: out, ?_, by simp [hlen], ?_⟩
      · rw [List.mapM_cons, modelRow_obj, okBind, hout, okBind, pureOk]
      · rw [List.countP_cons, List.countP_cons, hcnt, isDefaultRow_rowOf]

/-- Claim C5 (amended): parse_list_models_response flags a model as
default exactly when its modelName equals the response's declared default
model; the number of rows flagged equals the number of models whose name
matches, which is exactly one only when exactly one model bears the
declared default name. -/
theorem c5_name_equality (fs : List (String × Json)) (ms : List Json)
    (hm : (getField fs "models").getD (Json.arr []) = Json.arr ms)
    (hwf : ∀ m ∈ ms, ∃ mfs, m = Json.obj mfs) :
    ∃ out, parse_list_models_response (Json.obj fs) = .ok out ∧
      out.length = ms.length ∧
      out.countP isDefaultRow =
        ms.countP (fun m =>
          jeq (nameOf m) ((getField fs "defaultModel").getD Json.null)) := by
  obtain ⟨out, hout, hlen, hcnt⟩ :=
    mapM_modelRow ((getField fs "defaultModel").getD Json.null) ms hwf
  refine ⟨out, ?_, hlen, hcnt⟩
  unfold parse_list_models_response
  simp only [pyGet, okBind, hm, pyIterVals]
  exact hout

/-- Claim C5 counterexample: a response whose declared default model name
matches none of its two listed models yields zero default-flagged rows,
not exactly one. -/
theorem c5_zero_defaults :
    (parse_list_models_response (Json.obj
        [("models", Json.arr [Json.obj [("modelName", Json.str "a")],
                              Json.obj [("modelName", Json.str "b")]]),
         ("defaultModel", Json.str "c")])).map
      (fun l => (l.countP isDefaultRow, l.length)) = .ok (0, 2) := rfl

/-- Witness for the amended C5 theorem: one of two models carries the
declared default name, and exactly one row is flagged. -/
theorem c5_name_equality_witness :
    ∃ out, parse_list_models_response (Json.obj
        [("models", Json.arr [Json.obj [("modelName", Json.str "a")],
                              Json.obj [("modelName", Json.str "b")]]),
         ("defaultModel", Json.str "a")]) = .ok out ∧
      out.length = ([Json.obj [("modelName", Json.str "a")],
                     Json.obj [("modelName", Json.str "b")]] : List Json).length ∧
      out.countP isDefaultRow =
        ([Json.obj [("modelName", Json.str "a")],
          Json.obj [("modelName", Json.str "b")]] : List Json).countP (fun m =>
          jeq (nameOf m) ((getField
            [("models", Json.arr [Json.obj [("modelName", Json.str "a")],
                                  Json.obj [("modelName", Json.str "b")]]),
             ("defaultModel", Json.str "a")] "defaultModel").getD Json.null)) :=
  c5_name_equality _ _ rfl (by intro m hm; fin_cases hm <;> exact ⟨_, rfl⟩)

/-- Claim C8: both header builders always emit the bearer Authorization
header; the target header carries the operation target, and
get_kiro_headers omits x-amz-target entirely when no target is supplied
while every other header of the template stays present. -/
theorem c8_headers (token tgt fp inv ot : String) (hot : ot ≠ "") :
    lookupHeader (get_q_api_headers token tgt inv) "Authorization" =
      some ("Bearer " ++ token) ∧
    lookupHeader (get_q_api_headers token tgt inv) "x-amz-target" = some tgt ∧
    lookupHeader (get_kiro_headers fp token (some ot) inv) "Authorization" =
      some ("Bearer " ++ token) ∧
    lookupHeader (get_kiro_headers fp token (some ot) inv) "x-amz-target" =
      some ot ∧
    lookupHeader (get_kiro_headers fp token none inv) "x-amz-target" = none ∧
    (get_kiro_headers fp token none inv).map Prod.fst =
      ["Authorization", "Content-Type", "User-Agent", "x-amz-user-agent",
       "x-amzn-codewhisperer-optout", "amz-sdk-invocation-id",
       "amz-sdk-request"] ∧
    lookupHeader (get_kiro_headers fp token none inv) "Authorization" =
      some ("Bearer " ++ token) := by
  have hie : ot.isEmpty = false := by
    cases he : ot.isEmpty with
    | false => rfl
    | true => exact absurd ((String.isEmpty_iff ot).mp he) hot
  have hts : optStrTruthy (some ot) = true := by simp [optStrTruthy, hie]
  refine ⟨rfl, rfl, ?_, ?_, rfl, rfl, rfl⟩ <;>
    simp only [get_kiro_headers, hts, if_true] <;> rfl

lemma hexDigit_mem (m : Nat) : hexDigit m ∈ hexChars := by
  rcases lt_or_ge m 16 with h | h
  · interval_cases m <;> decide
  · unfold hexDigit
    rw [List.getD_eq_default]
    · decide
    · have hl : hexChars.length = 16 := rfl
      omega

lemma wordHex_mem (w : Nat) (c : Char) (hc : c ∈ wordHex w) : c ∈ hexChars := by
  simp only [wordHex, List.mem_cons, List.not_mem_nil, or_false] at hc
  rcases hc with rfl | rfl | rfl | rfl | rfl | rfl | rfl | rfl <;>
    exact hexDigit_mem _

lemma hexOfHash_length (st : Hash8) : (hexOfHash st).length = 64 := rfl

lemma hexOfHash_mem (st : Hash8) (c : Char) (hc : c ∈ (hexOfHash st).toList) :
    c ∈ hexChars := by
  have hc2 : c ∈ wordHex st.a ++ wordHex st.b ++ wordHex st.c ++ wordHex st.d ++
      wordHex st.e ++ wordHex st.f ++ wordHex st.g ++ wordHex st.h := hc
  simp only [List.mem_append] at hc2
  rcases hc2 with ((((((hw | hw) | hw) | hw) | hw) | hw) | hw) | hw <;>
    exact wordHex_mem _ _ hw

/-- Claim C9: get_machine_fingerprint is total over both the successful
identity lookup and the fallback path, always returns a 64-character
string of lowercase hexadecimal digits, and is deterministic: equal
host/user environments give equal digests. -/
theorem c9_fingerprint (idv : Option (String × String)) :
    (get_machine_fingerprint idv).length = 64 ∧
    (∀ c ∈ (get_machine_fingerprint idv).toList, c ∈ hexChars) ∧
    ∀ idv2 : Option (String × String), idv = idv2 →
      get_machine_fingerprint idv = get_machine_fingerprint idv2 := by
  refine ⟨?_, ?_, fun idv2 h => by rw [h]⟩
  · cases idv with
    | none => exact hexOfHash_length _
    | some hu => obtain ⟨hn, un⟩ := hu; exact hexOfHash_length _
  · cases idv with
    | none => exact fun c hc => hexOfHash_mem _ c hc
    | some hu => obtain ⟨hn, un⟩ := hu; exact fun c hc => hexOfHash_mem _ c hc

/-- Witness for C2 at one (user, assistant) pair followed by one unpaired
user message. -/
theorem c2_alternating_pairs_witness :
    ∃ st, build_conversation_state
        (altMessages [(Json.str "u1", Json.str "a1")] (some (Json.str "u2")))
        "m" none none "MANUAL" = .ok st ∧
      historyTurns st = turnsOf [(Json.str "u1", Json.str "a1")] ∧
      (historyTurns st).length = [(Json.str "u1", Json.str "a1")].length ∧
      ∀ c ∈ some (Json.str "u2"), jlookup st "currentMessage" =
        some (mkUserInputMessage (flatVal c)) :=
  c2_alternating_pairs [(Json.str "u1", Json.str "a1")] (some (Json.str "u2"))
    (by intro p hp; fin_cases hp; exact ⟨rfl, rfl⟩)
    (by intro c hc; cases hc; exact rfl)
    "m" none none "MANUAL"

/-- Witness for C6 at a single user message with multimodal content: one
text part and one image part. -/
theorem c6_single_user_witness :
    ∃ st, build_conversation_state
        [userMsg (Json.arr [Json.obj [("type", Json.str "text"),
                                      ("text", Json.str "hi")],
                            Json.obj [("type", Json.str "image")]])]
        "m" none none "MANUAL" = .ok st ∧
      jlookup st "history" = none ∧
      jlookup st "currentMessage" = some (mkUserInputMessage (Json.str "hi")) ∧
      jlookup (mkUserInputMessage (Json.str "hi")) "content" =
        some (Json.str "hi") ∧
      (∀ parts texts, asStrList (collectTextParts parts) = some texts →
        flattenContent (Json.arr parts) =
          .ok (Json.str (String.intercalate "\n" texts))) :=
  c6_single_user
    (Json.arr [Json.obj [("type", Json.str "text"), ("text", Json.str "hi")],
               Json.obj [("type", Json.str "image")]])
    (Json.str "hi") rfl "m" none none "MANUAL"

/-- Witness for C7: an assistant message heading a list (no pending user
message) leaves the build unchanged. -/
theorem c7_orphan_assistant_witness :
    build_conversation_state
      ([] ++ asstMsg (Json.str "a") :: [userMsg (Json.str "u")])
      "m" none none "MANUAL" =
    build_conversation_state ([] ++ [userMsg (Json.str "u")])
      "m" none none "MANUAL" :=
  c7_orphan_assistant [] [userMsg (Json.str "u")] (Json.str "a") [] rfl rfl
    "m" none none "MANUAL"

/-- Witness for C8 at concrete token, targets and fingerprint. -/
theorem c8_headers_witness :
    lookupHeader (get_q_api_headers "abc" "T" "inv") "Authorization" =
      some ("Bearer " ++ "abc") ∧
    lookupHeader (get_q_api_headers "abc" "T" "inv") "x-amz-target" = some "T" ∧
    lookupHeader (get_kiro_headers "fp" "abc" (some "X.Y") "inv")
      "Authorization" = some ("Bearer " ++ "abc") ∧
    lookupHeader (get_kiro_headers "fp" "abc" (some "X.Y") "inv")
      "x-amz-target" = some "X.Y" ∧
    lookupHeader (get_kiro_headers "fp" "abc" none "inv") "x-amz-target" =
      none ∧
    (get_kiro_headers "fp" "abc" none "inv").map Prod.fst =
      ["Authorization", "Content-Type", "User-Agent", "x-amz-user-agent",
       "x-amzn-codewhisperer-optout", "amz-sdk-invocation-id",
       "amz-sdk-request"] ∧
    lookupHeader (get_kiro_headers "fp" "abc" none "inv") "Authorization" =
      some ("Bearer " ++ "abc") :=
  c8_headers "abc" "T" "fp" "inv" "X.Y" (by decide)

/-- Witness for C9 at a concrete host/user identity. -/
theorem c9_fingerprint_witness :
    (get_machine_fingerprint (some ("host", "user"))).length = 64 ∧
    get_machine_fingerprint (some ("host", "user")) =
      get_machine_fingerprint (some ("host", "user")) :=
  ⟨(c9_fingerprint (some ("host", "user"))).1,
   (c9_fingerprint (some ("host", "user"))).2.2 (some ("host", "user")) rfl⟩
